import Mathlib

/-!
Shallow embedding of the WaveLogGoat polling bridge (waveloggoat.go).

Radio state (`RigData`), the outbound Wavelog JSON payload
(`WavelogJSONRequest` plus its serialized form), the configuration merge
performed in `main`, the startup validation, the change gate of the poll
loop, and the two `GetData` readers (flrig XML-RPC and hamlib line-TCP)
are translated from the Go source.  External effects (XML-RPC calls,
TCP reads, `strconv.ParseFloat`, `time.ParseDuration`) are passed in as
oracle values / function parameters, so the theorems are about the
program's own control flow and data transformations.

Go `float64` fields are embedded as ℚ, Go `int` as ℤ; `int(f)` on a
float is truncation toward zero, embedded as `truncInt`.
-/

namespace WaveLogGoat

/-- `RigData` from waveloggoat.go: radio state as provided by flrig or hamlib. -/
structure RigData where
  FreqVFOA : ℚ
  FreqVFOB : ℚ
  Mode : String
  ModeB : String
  Split : ℤ
  Power : ℚ
deriving DecidableEq

/-- `WavelogJSONRequest` from waveloggoat.go: the JSON payload struct.
`FrequencyRX` and `ModeRX` carry `omitempty` in the source. -/
structure WavelogJSONRequest where
  Key : String
  Radio : String
  Power : ℚ
  Frequency : ℤ
  Mode : String
  FrequencyRX : ℤ
  ModeRX : String
deriving DecidableEq

/-- `ProfileConfig` from waveloggoat.go. -/
structure ProfileConfig where
  WavelogURL : String
  WavelogKey : String
  RadioName : String
  FlrigHost : String
  FlrigPort : ℤ
  HamlibHost : String
  HamlibPort : ℤ
  Interval : String
  DataSource : String
  LogLevel : String
deriving DecidableEq

/-- `ConfigFile` from waveloggoat.go (the profile map embedded as an
association list). -/
structure ConfigFile where
  DefaultProfile : String
  Profiles : List (String × ProfileConfig)

/-- A JSON scalar as it appears in the serialized request body. -/
inductive JValue where
  | str (s : String)
  | num (q : ℚ)
  | int (n : ℤ)
deriving DecidableEq

/-- Go's `int(f)` conversion on a `float64`: truncation toward zero.
On a rational `num/den` this is the T-division of numerator by
denominator. -/
def truncInt (q : ℚ) : ℤ := Int.tdiv q.num (q.den : ℤ)

/-- The payload construction of `postToWavelog` (waveloggoat.go lines
266-279): the struct literal, then the split-aware field swap. -/
def buildPayload (config : ProfileConfig) (data : RigData) : WavelogJSONRequest :=
  let payload : WavelogJSONRequest :=
    { Key := config.WavelogKey
      Radio := config.RadioName
      Power := data.Power
      Frequency := truncInt data.FreqVFOA
      Mode := data.Mode
      FrequencyRX := 0
      ModeRX := "" }
  if data.Split ≠ 0 then
    { payload with
        Frequency := truncInt data.FreqVFOB
        Mode := data.ModeB
        FrequencyRX := truncInt data.FreqVFOA
        ModeRX := data.Mode }
  else payload

/-- `json.Marshal` of a `WavelogJSONRequest`, as an ordered key/value
list: fields in declaration order, `frequency_rx` omitted when `0` and
`mode_rx` omitted when `""` (the `omitempty` tags). -/
def renderPayload (p : WavelogJSONRequest) : List (String × JValue) :=
  [("key", JValue.str p.Key),
   ("radio", JValue.str p.Radio),
   ("power", JValue.num p.Power),
   ("frequency", JValue.int p.Frequency),
   ("mode", JValue.str p.Mode)]
  ++ (if p.FrequencyRX ≠ 0 then [("frequency_rx", JValue.int p.FrequencyRX)] else [])
  ++ (if p.ModeRX ≠ "" then [("mode_rx", JValue.str p.ModeRX)] else [])

/-- The outbound body `postToWavelog` produces for a snapshot. -/
def postBody (config : ProfileConfig) (data : RigData) : List (String × JValue) :=
  renderPayload (buildPayload config data)

/-- The `defaultConfig` literal at the top of `main`. -/
def defaultConfig : ProfileConfig :=
  { WavelogURL := "http://localhost/index.php"
    WavelogKey := "YOUR_API_KEY"
    RadioName := "RIG"
    FlrigHost := "127.0.0.1"
    FlrigPort := 12345
    HamlibHost := "127.0.0.1"
    HamlibPort := 4532
    Interval := "1s"
    DataSource := "flrig"
    LogLevel := "error" }

/-- Which command-line flags were explicitly set this run, and their
values: `flag.Visit` only sees explicitly passed flags, so each is an
optional value. -/
structure FlagOverrides where
  wavelogURL : Option String
  wavelogKey : Option String
  radioName : Option String
  flrigHost : Option String
  flrigPort : Option ℤ
  hamlibHost : Option String
  hamlibPort : Option ℤ
  interval : Option String
  dataSource : Option String
  logLevel : Option String

/-- The `flag.Visit` loop of `main` (lines 389-412): each explicitly set
flag overrides the corresponding field. -/
def applyFlags (c : ProfileConfig) (f : FlagOverrides) : ProfileConfig :=
  { WavelogURL := f.wavelogURL.getD c.WavelogURL
    WavelogKey := f.wavelogKey.getD c.WavelogKey
    RadioName := f.radioName.getD c.RadioName
    FlrigHost := f.flrigHost.getD c.FlrigHost
    FlrigPort := f.flrigPort.getD c.FlrigPort
    HamlibHost := f.hamlibHost.getD c.HamlibHost
    HamlibPort := f.hamlibPort.getD c.HamlibPort
    Interval := f.interval.getD c.Interval
    DataSource := f.dataSource.getD c.DataSource
    LogLevel := f.logLevel.getD c.LogLevel }

/-- The profile-name selection of `main` (lines 370-376): an explicit
`-profile` flag wins, else the file's default profile, else "default". -/
def profileToUse (currentProfileName : String) (cfg : ConfigFile) : String :=
  let p := if currentProfileName ≠ "" then currentProfileName else cfg.DefaultProfile
  if p = "" then "default" else p

/-- The configuration merge of `main` (lines 379-412): start from
`defaults`, replace wholesale by the stored profile when the selected
name resolves to a record, then apply explicitly set flags field-wise. -/
def resolveConfig (defaults : ProfileConfig) (cfg : ConfigFile)
    (currentProfileName : String) (f : FlagOverrides) : ProfileConfig :=
  let base := (cfg.Profiles.lookup (profileToUse currentProfileName cfg)).getD defaults
  applyFlags base f

/-- `strings.ToLower`, character by character. -/
def goToLower (s : String) : String :=
  String.mk (s.data.map Char.toLower)

/-- Outcome of the startup validation in `main`. -/
inductive StartupOutcome where
  | fatal
  | runFlrig
  | runHamlib
deriving DecidableEq

/-- The fatal checks of `main` after the merge and before the poll loop
(lines 440-463), in source order: API key empty or equal to the built-in
placeholder, URL empty, the `strings.ToLower` data-source switch, then
`time.ParseDuration` on the interval (`durParses` stands for the
external duration parser's success). -/
def startupValidate (c : ProfileConfig) (durParses : String → Bool) : StartupOutcome :=
  if c.WavelogKey = "" ∨ c.WavelogKey = defaultConfig.WavelogKey then .fatal
  else if c.WavelogURL = "" then .fatal
  else if goToLower c.DataSource = "flrig" then
    (if durParses c.Interval then .runFlrig else .fatal)
  else if goToLower c.DataSource = "hamlib" then
    (if durParses c.Interval then .runHamlib else .fatal)
  else .fatal

/-- The change-gate decision. -/
inductive Decision where
  | forward
  | skip
deriving DecidableEq

/-- The gate in the poll loop (line 484): skip exactly when the new
snapshot is `==` to the last forwarded one (Go struct equality,
field-wise). -/
def changeGate (lastData currentData : RigData) : Decision :=
  if currentData = lastData then .skip else .forward

/-- The zero value of `var lastData RigData` in `main` (line 465). -/
def initialLastData : RigData :=
  { FreqVFOA := 0, FreqVFOB := 0, Mode := "", ModeB := "", Split := 0, Power := 0 }

/-- How one cycle of the poll loop ends (all four continue the loop). -/
inductive TickOutcome where
  | readFailed
  | unchanged
  | forwardFailed
  | forwarded
deriving DecidableEq

/-- One iteration of the poll loop (lines 468-498): `read` is the result
of `client.GetData()`, `postOk` whether `postToWavelog` would succeed.
Returns the new `lastData` and how the cycle ended. -/
def pollTick (lastData : RigData) (read : Option RigData) (postOk : Bool) :
    RigData × TickOutcome :=
  match read with
  | none => (lastData, .readFailed)
  | some currentData =>
    match changeGate lastData currentData with
    | .skip => (lastData, .unchanged)
    | .forward =>
      if postOk then (currentData, .forwarded) else (lastData, .forwardFailed)

/-- Run the poll loop over a list of per-tick events, returning the final
baseline and the successfully forwarded snapshots in order. -/
def runTrace : RigData → List (Option RigData × Bool) → RigData × List RigData
  | st, [] => (st, [])
  | st, ev :: rest =>
    let r := pollTick st ev.1 ev.2
    let t := runTrace r.1 rest
    if r.2 = TickOutcome.forwarded then (t.1, r.1 :: t.2) else (t.1, t.2)

/-- Oracle for one flrig `GetData` call: the result of client creation
and of each XML-RPC call (`none` = the call returned an error). -/
structure FlrigOracle where
  clientOk : Bool
  get_vfo : Option String
  get_mode : Option String
  get_power : Option ℤ
  get_split : Option ℤ
  get_vfoB : Option String
  get_modeB : Option String

/-- `FlrigClient.GetData` (lines 142-193), with `parse` standing for
`strconv.ParseFloat`: mandatory vfo-A retrieval/parse and mode retrieval,
tolerated power and split calls, vfo-B call failure replaced by the
vfo-A string, hard parse of the resulting vfo-B string, tolerated
mode-B call. -/
def flrigGetData (parse : String → Option ℚ) (o : FlrigOracle) : Option RigData :=
  if o.clientOk then
    match o.get_vfo with
    | none => none
    | some vfoA =>
      match parse vfoA with
      | none => none
      | some freqA =>
        match o.get_mode with
        | none => none
        | some mode =>
          let power : ℤ := o.get_power.getD 0
          let split : ℤ := o.get_split.getD 0
          let vfoB : String := o.get_vfoB.getD vfoA
          match parse vfoB with
          | none => none
          | some freqB =>
            let modeB := o.get_modeB.getD mode
            some { FreqVFOA := freqA, FreqVFOB := freqB, Mode := mode,
                   ModeB := modeB, Split := split, Power := (power : ℚ) }
  else none

/-- Oracle for one hamlib `GetData` call: dial success, per-command send
success and response line (`none` = the read failed). -/
structure HamlibOracle where
  dialOk : Bool
  sendF : Bool
  lineF : Option String
  sendM : Bool
  lineM : Option String
  sendP : Bool
  lineP : Option String

/-- Accumulating pass behind `goFields`: `acc` holds the current token's
characters in reverse. -/
def fieldsAux : List Char → List Char → List String
  | [], acc => if acc.isEmpty then [] else [String.mk acc.reverse]
  | c :: cs, acc =>
    if c.isWhitespace then
      if acc.isEmpty then fieldsAux cs []
      else String.mk acc.reverse :: fieldsAux cs []
    else fieldsAux cs (c :: acc)

/-- `strings.Fields`: split on whitespace, dropping empty tokens. -/
def goFields (s : String) : List String :=
  fieldsAux s.data []

/-- `HamlibClient.GetData` (lines 198-264), with `parse` standing for
`strconv.ParseFloat`: mandatory `f` send/read/parse, mandatory `m`
send/read with first whitespace token as both modes, tolerated `P`
send/read/parse (power 0 on any failure), split fixed to 0 and vfo-B
mirroring vfo-A. -/
def hamlibGetData (parse : String → Option ℚ) (o : HamlibOracle) : Option RigData :=
  if o.dialOk then
    if o.sendF then
      match o.lineF with
      | none => none
      | some freqStr =>
        match parse freqStr with
        | none => none
        | some freqA =>
          if o.sendM then
            match o.lineM with
            | none => none
            | some modeResp =>
              match goFields modeResp with
              | [] => none
              | m :: _ =>
                let power : ℚ :=
                  if o.sendP then
                    match o.lineP with
                    | none => 0
                    | some ps => (parse ps).getD 0
                  else 0
                some { FreqVFOA := freqA, FreqVFOB := freqA, Mode := m,
                       ModeB := m, Split := 0, Power := power }
          else none
    else none
  else none

/-- A small concrete stand-in for `strconv.ParseFloat` used to evaluate
theorems at concrete inputs: accepts nonempty strings of decimal digits. -/
def decDigits : List Char → Option ℕ
  | [] => some 0
  | c :: cs =>
    if c.isDigit then
      (decDigits cs).map (fun n => (c.toNat - 48) * 10 ^ cs.length + n)
    else none

/-- Parse a nonempty all-digit string to a rational. -/
def sampleParse (s : String) : Option ℚ :=
  match s.data with
  | [] => none
  | cs => (decDigits cs).map (fun n => (n : ℚ))

/-- A concrete valid configuration used to evaluate theorems. -/
def sampleConfig : ProfileConfig :=
  { defaultConfig with WavelogKey := "k", RadioName := "IC-7300" }

/-- A concrete snapshot used to evaluate theorems. -/
def sampleData : RigData :=
  { FreqVFOA := 14074000, FreqVFOB := 14074000, Mode := "DATA",
    ModeB := "DATA", Split := 0, Power := 100 }

/-- A fully successful flrig call sequence, used to evaluate theorems. -/
def flrigOkOracle : FlrigOracle :=
  { clientOk := true, get_vfo := some "14000000", get_mode := some "USB",
    get_power := some 50, get_split := some 1,
    get_vfoB := some "14001000", get_modeB := some "LSB" }

/-- A fully successful hamlib exchange, used to evaluate theorems. -/
def hamlibOkOracle : HamlibOracle :=
  { dialOk := true, sendF := true, lineF := some "14000000", sendM := true,
    lineM := some "USB 2400", sendP := true, lineP := some "50" }

/-- Flag overrides with no flag explicitly set. -/
def noFlags : FlagOverrides :=
  { wavelogURL := none, wavelogKey := none, radioName := none,
    flrigHost := none, flrigPort := none, hamlibHost := none,
    hamlibPort := none, interval := none, dataSource := none,
    logLevel := none }

/-- A cycle that does not end in a successful forward leaves the
baseline untouched. -/
theorem pollTick_not_forwarded (last : RigData) (read : Option RigData)
    (postOk : Bool) (h : (pollTick last read postOk).2 ≠ TickOutcome.forwarded) :
    (pollTick last read postOk).1 = last := by
  rcases read with _ | d
  · rfl
  · unfold pollTick changeGate at h ⊢
    by_cases hd : d = last
    · simp [hd]
    · simp only [hd, if_neg, if_false] at h ⊢
      cases postOk
      · simp
      · simp at h

/-- Along any trace, the baseline equals the most recently successfully
forwarded snapshot, or the initial value when none has succeeded. -/
theorem runTrace_baseline (init : RigData) (events : List (Option RigData × Bool)) :
    (runTrace init events).1 = ((runTrace init events).2.getLast?).getD init := by
  induction events generalizing init with
  | nil => simp [runTrace]
  | cons ev rest ih =>
    simp only [runTrace]
    by_cases h : (pollTick init ev.1 ev.2).2 = TickOutcome.forwarded
    · simp only [h, if_true, if_pos]
      cases hl : (runTrace (pollTick init ev.1 ev.2).1 rest).2 with
      | nil =>
        have hb := ih (pollTick init ev.1 ev.2).1
        rw [hl] at hb
        simpa using hb
      | cons a as =>
        have hb := ih (pollTick init ev.1 ev.2).1
        rw [hl] at hb
        simpa [List.getLast?_cons_cons] using hb
    · simp only [h, if_false, if_neg]
      rw [pollTick_not_forwarded init ev.1 ev.2 h]
      exact ih init

/-- Claim C1: the change gate forwards a newly read snapshot iff it is
not structurally equal (every field) to the last forwarded one; a
snapshot compared against an equal baseline yields skip, and differing
in at least one field yields forward. -/
theorem changeGate_forward_iff_ne (last cur : RigData) :
    (changeGate last cur = Decision.forward ↔ cur ≠ last) ∧
    changeGate cur cur = Decision.skip ∧
    (cur ≠ last ↔
      (cur.FreqVFOA ≠ last.FreqVFOA ∨ cur.FreqVFOB ≠ last.FreqVFOB ∨
       cur.Mode ≠ last.Mode ∨ cur.ModeB ≠ last.ModeB ∨
       cur.Split ≠ last.Split ∨ cur.Power ≠ last.Power)) := by
  refine ⟨?_, ?_, ?_⟩
  · unfold changeGate
    by_cases h : cur = last <;> simp [h]
  · unfold changeGate
    simp
  · cases last
    cases cur
    simp only [ne_eq, RigData.mk.injEq, not_and]
    tauto

/-- Claim C2 counterexample: for a split-on snapshot whose receive
frequency truncates to 0 Hz, the outbound body does not carry the
`frequency_rx` key at all (the claim asserts it is present with the
truncated value). -/
theorem postBody_split_rx_cex :
    (RigData.mk 0 7000000 "USB" "LSB" 1 50).Split ≠ 0 ∧
    ¬ (List.lookup "frequency_rx"
        (postBody sampleConfig (RigData.mk 0 7000000 "USB" "LSB" 1 50)) =
       some (JValue.int (truncInt (RigData.mk 0 7000000 "USB" "LSB" 1 50).FreqVFOA))) ∧
    List.lookup "frequency_rx"
      (postBody sampleConfig (RigData.mk 0 7000000 "USB" "LSB" 1 50)) = none := by
  decide

/-- Claim C2 (amended): the body always carries key, radio, power
(unconverted); with split off it carries frequency = trunc(freqA) and
mode = modeA and no rx fields; with split on it carries
frequency = trunc(freqB), mode = modeB, and the rx fields
frequency_rx = trunc(freqA) / mode_rx = modeA, each present only when
its value is nonzero resp. nonempty. -/
theorem postBody_characterization (config : ProfileConfig) (data : RigData) :
    postBody config data =
      (if data.Split = 0 then
        [("key", JValue.str config.WavelogKey),
         ("radio", JValue.str config.RadioName),
         ("power", JValue.num data.Power),
         ("frequency", JValue.int (truncInt data.FreqVFOA)),
         ("mode", JValue.str data.Mode)]
      else
        [("key", JValue.str config.WavelogKey),
         ("radio", JValue.str config.RadioName),
         ("power", JValue.num data.Power),
         ("frequency", JValue.int (truncInt data.FreqVFOB)),
         ("mode", JValue.str data.ModeB)]
        ++ (if truncInt data.FreqVFOA ≠ 0 then
              [("frequency_rx", JValue.int (truncInt data.FreqVFOA))] else [])
        ++ (if data.Mode ≠ "" then
              [("mode_rx", JValue.str data.Mode)] else [])) := by
  unfold postBody buildPayload renderPayload
  by_cases h : data.Split = 0 <;> simp [h]

/-- Claim C6 counterexample: on the first tick the baseline is the
zero-valued snapshot, and a successfully read snapshot equal to that
zero value is skipped, not forwarded. -/
theorem first_tick_zero_snapshot_skipped_cex :
    pollTick initialLastData (some initialLastData) true =
      (initialLastData, TickOutcome.unchanged) := by
  decide

/-- Claim C6 (amended): on the first tick the baseline is the zero-valued
snapshot `initialLastData`, so a successfully read snapshot is treated
as unchanged iff it equals the zero value, and the gate forwards it iff
it differs from the zero value. -/
theorem first_tick_forward_iff_ne_zero (d : RigData) (postOk : Bool) :
    ((pollTick initialLastData (some d) postOk).2 = TickOutcome.unchanged ↔
      d = initialLastData) ∧
    (changeGate initialLastData d = Decision.forward ↔ d ≠ initialLastData) := by
  constructor
  · unfold pollTick changeGate
    by_cases h : d = initialLastData
    · simp [h]
    · simp only [h, if_false, if_neg]
      cases postOk <;> simp [h]
  · unfold changeGate
    by_cases h : d = initialLastData <;> simp [h]

/-- Claim C9: after the merge, the process stops fatally iff the API key
is empty or the built-in placeholder, the URL is empty, the data-source
name is neither known variant, or the interval is unparsable; and every
poll-loop cycle ends in one of the four continuing outcomes (no error in
the polling path terminates the process). -/
theorem startup_fatal_iff (c : ProfileConfig) (dp : String → Bool) :
    (startupValidate c dp = StartupOutcome.fatal ↔
      (c.WavelogKey = "" ∨ c.WavelogKey = "YOUR_API_KEY" ∨ c.WavelogURL = "" ∨
       (goToLower c.DataSource ≠ "flrig" ∧ goToLower c.DataSource ≠ "hamlib") ∨
       dp c.Interval = false)) ∧
    (∀ (last : RigData) (read : Option RigData) (postOk : Bool),
      (pollTick last read postOk).2 = TickOutcome.readFailed ∨
      (pollTick last read postOk).2 = TickOutcome.unchanged ∨
      (pollTick last read postOk).2 = TickOutcome.forwardFailed ∨
      (pollTick last read postOk).2 = TickOutcome.forwarded) := by
  constructor
  · unfold startupValidate
    have hdef : defaultConfig.WavelogKey = "YOUR_API_KEY" := rfl
    rw [hdef]
    split_ifs with h1 h2 h3 h4 h5 h6 <;> (simp_all; try tauto)
  · intro last read postOk
    rcases read with _ | d
    · simp [pollTick]
    · unfold pollTick changeGate
      by_cases h : d = last
      · simp [h]
      · simp only [h, if_false, if_neg]
        cases postOk <;> simp

/-- Claim C10: with split on, the rx fields are serialized with
omit-when-zero semantics: a receive frequency truncating to 0 Hz leaves
`frequency_rx` absent, an empty receive mode leaves `mode_rx` absent,
and a zero/empty receive side makes the body identical to the body of
the corresponding split-off snapshot. -/
theorem render_omitempty_rx (config : ProfileConfig) (data : RigData)
    (hs : data.Split ≠ 0) :
    (truncInt data.FreqVFOA = 0 →
       "frequency_rx" ∉ (postBody config data).map Prod.fst) ∧
    (data.Mode = "" →
       "mode_rx" ∉ (postBody config data).map Prod.fst) ∧
    (truncInt data.FreqVFOA = 0 → data.Mode = "" →
       postBody config data =
         postBody config
           { data with FreqVFOA := data.FreqVFOB, Mode := data.ModeB, Split := 0 }) := by
  refine ⟨?_, ?_, ?_⟩
  · intro h1
    unfold postBody buildPayload renderPayload
    by_cases hm : data.Mode = "" <;> simp [hs, h1, hm]
  · intro h2
    unfold postBody buildPayload renderPayload
    by_cases hf : truncInt data.FreqVFOA = 0 <;> simp [hs, h2, hf]
  · intro h1 h2
    unfold postBody buildPayload renderPayload
    simp [hs, h1, h2]

/-- Claim C10 witness: a concrete split-on snapshot with receive
frequency 0 has no `frequency_rx` key in its body. -/
theorem render_omitempty_rx_witness :
    "frequency_rx" ∉
      (postBody sampleConfig (RigData.mk 0 7000000 "" "LSB" 1 50)).map Prod.fst :=
  (render_omitempty_rx sampleConfig (RigData.mk 0 7000000 "" "LSB" 1 50)
    (by decide)).1 (by decide)

/-- Claim C3: configuration resolution merges defaults, the selected
stored profile (skipped when the selected name has no stored record, so
defaults stand), then explicitly supplied per-run overrides, with later
layers overriding earlier ones field-by-field; every setting not
supplied by a later layer passes through unchanged. -/
theorem resolveConfig_merge (defaults : ProfileConfig) (cfg : ConfigFile)
    (nameFlag : String) (f : FlagOverrides) :
    (resolveConfig defaults cfg nameFlag f =
      applyFlags ((cfg.Profiles.lookup (profileToUse nameFlag cfg)).getD defaults) f) ∧
    (∀ base : ProfileConfig,
      (applyFlags base f).WavelogURL = f.wavelogURL.getD base.WavelogURL ∧
      (applyFlags base f).WavelogKey = f.wavelogKey.getD base.WavelogKey ∧
      (applyFlags base f).RadioName = f.radioName.getD base.RadioName ∧
      (applyFlags base f).FlrigHost = f.flrigHost.getD base.FlrigHost ∧
      (applyFlags base f).FlrigPort = f.flrigPort.getD base.FlrigPort ∧
      (applyFlags base f).HamlibHost = f.hamlibHost.getD base.HamlibHost ∧
      (applyFlags base f).HamlibPort = f.hamlibPort.getD base.HamlibPort ∧
      (applyFlags base f).Interval = f.interval.getD base.Interval ∧
      (applyFlags base f).DataSource = f.dataSource.getD base.DataSource ∧
      (applyFlags base f).LogLevel = f.logLevel.getD base.LogLevel) ∧
    (cfg.Profiles.lookup (profileToUse nameFlag cfg) = none →
      resolveConfig defaults cfg nameFlag f = applyFlags defaults f) := by
  refine ⟨rfl, fun base => ⟨rfl, rfl, rfl, rfl, rfl, rfl, rfl, rfl, rfl, rfl⟩, ?_⟩
  intro h
  unfold resolveConfig
  rw [h]
  rfl

/-- Claim C3 witness: with no stored record for the selected name, the
merge reduces to flags over defaults. -/
theorem resolveConfig_merge_witness :
    resolveConfig defaultConfig { DefaultProfile := "default", Profiles := [] } "" noFlags =
      applyFlags defaultConfig noFlags :=
  (resolveConfig_merge defaultConfig { DefaultProfile := "default", Profiles := [] }
    "" noFlags).2.2 rfl

/-- Claim C4: the baseline advances only on a successful forward; a
cycle not ending in a successful forward leaves it unchanged, a changed
snapshot whose forward fails is retried (the gate still fires for it),
and along every trace the baseline equals the most recently successfully
forwarded snapshot, or the initial value if none succeeded. -/
theorem baseline_advances_only_on_success :
    (∀ (last : RigData) (read : Option RigData) (postOk : Bool),
      (pollTick last read postOk).2 ≠ TickOutcome.forwarded →
      (pollTick last read postOk).1 = last) ∧
    (∀ (last d : RigData), d ≠ last →
      pollTick last (some d) false = (last, TickOutcome.forwardFailed) ∧
      pollTick last (some d) true = (d, TickOutcome.forwarded)) ∧
    (∀ (init : RigData) (events : List (Option RigData × Bool)),
      (runTrace init events).1 = ((runTrace init events).2.getLast?).getD init) := by
  refine ⟨pollTick_not_forwarded, ?_, runTrace_baseline⟩
  intro last d hd
  constructor
  · unfold pollTick changeGate
    simp [hd]
  · unfold pollTick changeGate
    simp [hd]

/-- Claim C4 witness: concrete failed-read, failed-forward and
successful-forward cycles, and a one-event trace invariant instance. -/
theorem baseline_advances_only_on_success_witness :
    (pollTick initialLastData none true).1 = initialLastData ∧
    pollTick initialLastData (some sampleData) false =
      (initialLastData, TickOutcome.forwardFailed) ∧
    pollTick initialLastData (some sampleData) true =
      (sampleData, TickOutcome.forwarded) ∧
    (runTrace initialLastData [(some sampleData, true)]).1 =
      ((runTrace initialLastData [(some sampleData, true)]).2.getLast?).getD
        initialLastData :=
  ⟨baseline_advances_only_on_success.1 initialLastData none true (by decide),
   (baseline_advances_only_on_success.2.1 initialLastData sampleData (by decide)).1,
   (baseline_advances_only_on_success.2.1 initialLastData sampleData (by decide)).2,
   baseline_advances_only_on_success.2.2 initialLastData [(some sampleData, true)]⟩

/-- Claim C5 counterexample: a read where only the VFO-B side misbehaves
(the `rig.get_vfoB` call succeeds but returns an unparsable string)
makes the whole flrig read fail, while the same read with a parsable
VFO-B response succeeds — so not only mandatory VFO-A fields can make
the read fail. -/
theorem flrig_vfoB_parse_failure_cex :
    flrigGetData sampleParse
      { clientOk := true, get_vfo := some "14000000", get_mode := some "USB",
        get_power := some 50, get_split := some 0,
        get_vfoB := some "QRM", get_modeB := some "USB" } = none ∧
    flrigGetData sampleParse
      { clientOk := true, get_vfo := some "14000000", get_mode := some "USB",
        get_power := some 50, get_split := some 0,
        get_vfoB := some "14001000", get_modeB := some "USB" } =
      some (RigData.mk 14000000 14001000 "USB" "USB" 0 50) := by
  decide

/-- Claim C5 (amended): every *call* failure of the VFO-B frequency or
VFO-B mode retrieval is tolerated. A failed `rig.get_vfoB` call makes
the read succeed with freqB = freqA (the vfo-A string is re-parsed), and
with modeB = modeA when the modeB call also failed; a failed
`rig.get_modeB` call alone (the vfoB call succeeding with a parsable
string) makes the read succeed with modeB = modeA. Only a successful
VFO-B call returning an unparsable string fails the whole read. -/
theorem flrig_vfoB_call_failure_tolerated
    (parse : String → Option ℚ) (o : FlrigOracle) (s m : String) (q : ℚ)
    (hc : o.clientOk = true) (hv : o.get_vfo = some s) (hp : parse s = some q)
    (hm : o.get_mode = some m) :
    (o.get_vfoB = none →
      ∃ d : RigData, flrigGetData parse o = some d ∧
        d.FreqVFOB = d.FreqVFOA ∧
        (o.get_modeB = none → d.ModeB = d.Mode)) ∧
    (∀ (s2 : String) (q2 : ℚ), o.get_vfoB = some s2 → parse s2 = some q2 →
      o.get_modeB = none →
      ∃ d : RigData, flrigGetData parse o = some d ∧
        d.FreqVFOB = q2 ∧ d.ModeB = d.Mode) := by
  constructor
  · intro hB
    unfold flrigGetData
    simp only [hc, hv, hp, hm, hB, if_true, Option.getD_none, Option.getD]
    refine ⟨_, rfl, rfl, ?_⟩
    intro h
    simp [h]
  · intro s2 q2 hB2 hp2 hmB
    unfold flrigGetData
    simp only [hc, hv, hp, hm, hB2, hp2, hmB, if_true, Option.getD_some,
      Option.getD_none, Option.getD]
    exact ⟨_, rfl, rfl, rfl⟩

/-- Claim C5 witness: with both VFO-B calls failing the read succeeds
and the secondary VFO mirrors the primary; with only the modeB call
failing the read succeeds with the read vfoB frequency and modeB =
modeA. -/
theorem flrig_vfoB_call_failure_tolerated_witness :
    (∃ d : RigData,
      flrigGetData sampleParse
        { clientOk := true, get_vfo := some "14000000", get_mode := some "USB",
          get_power := some 50, get_split := some 0,
          get_vfoB := none, get_modeB := none } = some d ∧
      d.FreqVFOB = d.FreqVFOA ∧
      ((FlrigOracle.mk true (some "14000000") (some "USB") (some 50) (some 0)
          none none).get_modeB = none → d.ModeB = d.Mode)) ∧
    (∃ d : RigData,
      flrigGetData sampleParse
        { clientOk := true, get_vfo := some "14000000", get_mode := some "USB",
          get_power := some 50, get_split := some 0,
          get_vfoB := some "14001000", get_modeB := none } = some d ∧
      d.FreqVFOB = 14001000 ∧ d.ModeB = d.Mode) :=
  ⟨(flrig_vfoB_call_failure_tolerated sampleParse
      { clientOk := true, get_vfo := some "14000000", get_mode := some "USB",
        get_power := some 50, get_split := some 0,
        get_vfoB := none, get_modeB := none }
      "14000000" "USB" 14000000 rfl rfl (by decide) rfl).1 rfl,
   (flrig_vfoB_call_failure_tolerated sampleParse
      { clientOk := true, get_vfo := some "14000000", get_mode := some "USB",
        get_power := some 50, get_split := some 0,
        get_vfoB := some "14001000", get_modeB := none }
      "14000000" "USB" 14000000 rfl rfl (by decide) rfl).2
     "14001000" 14001000 rfl (by decide) rfl⟩

/-- Claim C7: in both variants a failure of a mandatory read — the VFO-A
frequency retrieval or its numeric parse, or the primary mode
retrieval — aborts the whole read: GetData returns no snapshot. -/
theorem mandatory_failure_aborts
    (parse : String → Option ℚ) (o : FlrigOracle) (o2 : HamlibOracle)
    (hf : o.get_vfo = none ∨ (∃ s, o.get_vfo = some s ∧ parse s = none) ∨
          o.get_mode = none)
    (hh : o2.lineF = none ∨ (∃ s, o2.lineF = some s ∧ parse s = none) ∨
          o2.lineM = none) :
    flrigGetData parse o = none ∧ hamlibGetData parse o2 = none := by
  constructor
  · unfold flrigGetData
    by_cases hc : o.clientOk
    case neg => simp [hc]
    rcases hf with h | ⟨s, hs, hps⟩ | h
    · simp [hc, h]
    · simp [hc, hs, hps]
    · cases hv : o.get_vfo with
      | none => simp [hc, hv]
      | some s =>
        cases hp : parse s with
        | none => simp [hc, hv, hp]
        | some q => simp [hc, hv, hp, h]
  · unfold hamlibGetData
    by_cases hd : o2.dialOk
    case neg => simp [hd]
    by_cases hsf : o2.sendF
    case neg => simp [hd, hsf]
    rcases hh with h | ⟨s, hs, hps⟩ | h
    · simp [hd, hsf, h]
    · simp [hd, hsf, hs, hps]
    · cases hl : o2.lineF with
      | none => simp [hd, hsf, hl]
      | some s =>
        cases hp : parse s with
        | none => simp [hd, hsf, hl, hp]
        | some q =>
          by_cases hsm : o2.sendM
          · simp [hd, hsf, hl, hp, hsm, h]
          · simp [hd, hsf, hl, hp, hsm]

/-- Claim C7 witness: a failed `rig.get_vfo` call aborts the flrig read,
and a non-numeric `f` response aborts the hamlib read. -/
theorem mandatory_failure_aborts_witness :
    flrigGetData sampleParse
      { clientOk := true, get_vfo := none, get_mode := some "USB",
        get_power := none, get_split := none, get_vfoB := none,
        get_modeB := none } = none ∧
    hamlibGetData sampleParse
      { dialOk := true, sendF := true, lineF := some "abc", sendM := true,
        lineM := some "USB 2400", sendP := true, lineP := some "50" } = none :=
  mandatory_failure_aborts sampleParse
    { clientOk := true, get_vfo := none, get_mode := some "USB",
      get_power := none, get_split := none, get_vfoB := none,
      get_modeB := none }
    { dialOk := true, sendF := true, lineF := some "abc", sendM := true,
      lineM := some "USB 2400", sendP := true, lineP := some "50" }
    (Or.inl rfl) (Or.inr (Or.inl ⟨"abc", rfl, by decide⟩))

/-- Claim C8: in both variants a failure of the power read (call, I/O or
parse failure) is tolerated: the read result is the same otherwise
successful snapshot with power substituted by 0. -/
theorem power_failure_tolerated
    (parse : String → Option ℚ) (o : FlrigOracle) (o2 : HamlibOracle)
    (s : String) (hs : parse s = none) :
    flrigGetData parse { o with get_power := none } =
      (flrigGetData parse o).map (fun d => { d with Power := 0 }) ∧
    hamlibGetData parse { o2 with sendP := false } =
      (hamlibGetData parse o2).map (fun d => { d with Power := 0 }) ∧
    hamlibGetData parse { o2 with lineP := none } =
      (hamlibGetData parse o2).map (fun d => { d with Power := 0 }) ∧
    hamlibGetData parse { o2 with lineP := some s } =
      (hamlibGetData parse o2).map (fun d => { d with Power := 0 }) := by
  refine ⟨?_, ?_, ?_, ?_⟩
  · unfold flrigGetData
    by_cases hc : o.clientOk
    case neg => simp [hc]
    cases hv : o.get_vfo with
    | none => simp [hc, hv]
    | some a =>
      cases hp : parse a with
      | none => simp [hc, hv, hp]
      | some q =>
        cases hm : o.get_mode with
        | none => simp [hc, hv, hp, hm]
        | some m =>
          cases hB : parse (o.get_vfoB.getD a) with
          | none => simp [hc, hv, hp, hm, hB]
          | some qB => simp [hc, hv, hp, hm, hB]
  all_goals
    unfold hamlibGetData
    by_cases hd : o2.dialOk
    case neg => simp [hd]
    by_cases hsf : o2.sendF
    case neg => simp [hd, hsf]
    cases hl : o2.lineF with
    | none => simp [hd, hsf, hl]
    | some a =>
      cases hp : parse a with
      | none => simp [hd, hsf, hl, hp]
      | some q =>
        by_cases hsm : o2.sendM
        case neg => simp [hd, hsf, hl, hp, hsm]
        cases hm : o2.lineM with
        | none => simp [hd, hsf, hl, hp, hsm, hm]
        | some mr =>
          cases hgf : goFields mr with
          | nil => simp [hd, hsf, hl, hp, hsm, hm, hgf]
          | cons m rest => simp [hd, hsf, hl, hp, hsm, hm, hgf, hs]

/-- Claim C8 witness: concrete power-call, power-read and power-parse
failures each yield the otherwise-identical snapshot with power 0. -/
theorem power_failure_tolerated_witness :
    flrigGetData sampleParse { flrigOkOracle with get_power := none } =
      (flrigGetData sampleParse flrigOkOracle).map (fun d => { d with Power := 0 }) ∧
    hamlibGetData sampleParse { hamlibOkOracle with sendP := false } =
      (hamlibGetData sampleParse hamlibOkOracle).map (fun d => { d with Power := 0 }) ∧
    hamlibGetData sampleParse { hamlibOkOracle with lineP := none } =
      (hamlibGetData sampleParse hamlibOkOracle).map (fun d => { d with Power := 0 }) ∧
    hamlibGetData sampleParse { hamlibOkOracle with lineP := some "QRM" } =
      (hamlibGetData sampleParse hamlibOkOracle).map (fun d => { d with Power := 0 }) :=
  power_failure_tolerated sampleParse flrigOkOracle hamlibOkOracle "QRM" (by decide)

end WaveLogGoat
